import Mathlib

/-!
Shallow embedding of the `myprovider` Terraform provider core
(session authentication, AppRole / certificate / generic-secret
lifecycle controllers) and proofs about its behaviour.

Go JSON values are modelled by `JValue`; machine calls whose outcomes
depend on the network or the filesystem (HTTP round trips, backend
reads/writes, CA-file reads) are passed in as explicit outcome
parameters, so every embedded operation is a pure function of its
configuration, its starting attribute state and those outcomes.
A Go function that can panic (nil-pointer dereference, failed type
assertion) is modelled with the `GoResult.panicked` constructor, kept
distinct from an ordinary returned error (`GoResult.err`).
-/

/-- JSON values as decoded by Go `encoding/json` into `interface` values.
Numbers are modelled as integers; object fields keep their stored order. -/
inductive JValue where
  | null : JValue
  | bool : Bool → JValue
  | num : Int → JValue
  | str : String → JValue
  | arr : List JValue → JValue
  | obj : List (String × JValue) → JValue

/-- Field lookup in a decoded JSON object body (Go map indexing:
`data[k]` is the value when present). -/
def lookupJ : List (String × JValue) → String → Option JValue
  | [], _ => none
  | (k, v) :: rest, key => if k = key then some v else lookupJ rest key

/-- Lower-case hex digit, as produced by Go JSON `\u00XX` escapes. -/
def hexDigit (n : Nat) : String :=
  if n < 10 then toString n
  else if n = 10 then "a"
  else if n = 11 then "b"
  else if n = 12 then "c"
  else if n = 13 then "d"
  else if n = 14 then "e"
  else "f"

/-- Escaping of one character inside a Go JSON string literal
(`encoding/json` default encoder: quotes, backslashes, control
characters, the HTML-unsafe characters and U+2028/U+2029). -/
def jsonEscapeChar (c : Char) : String :=
  if c = '"' then "\\\""
  else if c = '\\' then "\\\\"
  else if c = '\n' then "\\n"
  else if c = '\r' then "\\r"
  else if c = '\t' then "\\t"
  else if c = '<' then "\\u003c"
  else if c = '>' then "\\u003e"
  else if c = '&' then "\\u0026"
  else if c.toNat < 32 then "\\u00" ++ hexDigit (c.toNat / 16) ++ hexDigit (c.toNat % 16)
  else if c.toNat = 0x2028 then "\\u2028"
  else if c.toNat = 0x2029 then "\\u2029"
  else String.singleton c

/-- A Go JSON string literal: quotes around the escaped characters. -/
def jsonQuote (s : String) : String :=
  "\"" ++ String.join (s.toList.map jsonEscapeChar) ++ "\""

mutual

/-- Canonical JSON encoding of a value, modelling Go `json.Marshal`
applied to a decoded `interface` value. -/
def jsonSerialize : JValue → String
  | .null => "null"
  | .bool true => "true"
  | .bool false => "false"
  | .num n => toString n
  | .str s => jsonQuote s
  | .arr xs => "[" ++ serializeArr xs ++ "]"
  | .obj fs => "\x7b" ++ serializeObj fs ++ "\x7d"

/-- Comma-joined encodings of the elements of a JSON array. -/
def serializeArr : List JValue → String
  | [] => ""
  | [x] => jsonSerialize x
  | x :: y :: rest => jsonSerialize x ++ "," ++ serializeArr (y :: rest)

/-- Comma-joined `"key":value` encodings of the fields of a JSON object. -/
def serializeObj : List (String × JValue) → String
  | [] => ""
  | [(k, v)] => jsonQuote k ++ ":" ++ jsonSerialize v
  | (k, v) :: f :: rest => jsonQuote k ++ ":" ++ jsonSerialize v ++ "," ++ serializeObj (f :: rest)

end

/-- Outcome of one embedded Go function call: a returned value, a
returned non-nil `error`, or a runtime panic. -/
inductive GoResult (α : Type) where
  | ok : α → GoResult α
  | err : String → GoResult α
  | panicked : String → GoResult α

/-- `true` exactly on the `err` constructor. -/
def GoResult.isErr {α : Type} : GoResult α → Bool
  | .err _ => true
  | _ => false

/-- `true` exactly on the `panicked` constructor. -/
def GoResult.isPanic {α : Type} : GoResult α → Bool
  | .panicked _ => true
  | _ => false

/-- The provider-level configuration attributes read by `githubLogin`
and `providerConfigure` (provider code of `part_001`). `clientAuth`
models the `client_auth` schema list as cert/key file pairs. -/
structure ProviderConfig where
  address : String
  token : String
  personal_access_token : String
  github_org : String
  namespace_domain : String
  ca_cert_file : String
  clientAuth : List (String × String)

/-- The observable shape of the `net/http` client built by
`githubLogin`: its request timeout in seconds (`0` means no timeout,
as for Go's zero `Timeout` field) and whether a custom root-CA pool
replaces the default transport. -/
structure HttpClientModel where
  timeoutSeconds : Nat
  customRootCAs : Bool

/-- The HTTP request `githubLogin` hands to `client.Do`. -/
structure LoginRequest where
  method : String
  url : String
  body : String
  client : HttpClientModel

/-- What `client.Do` comes back with: a transport error, a nil
response, or a response with a status code and a body (the body is
`none` when it is not valid JSON, `some j` when it decodes to `j`). -/
inductive HttpOutcome where
  | netError : String → HttpOutcome
  | nilResponse : HttpOutcome
  | response : Nat → Option JValue → HttpOutcome

/-- The `Auth` member of `api.Secret`; Go leaves `ClientToken` as the
empty string when the JSON omits `client_token`. -/
structure SecretAuth where
  clientToken : String

/-- The part of `api.Secret` that `githubLogin` consumes: `Auth` is a
pointer in Go, hence `Option` here (`none` when the JSON has no
`auth` member or it is null). -/
structure ApiSecretPayload where
  auth : Option SecretAuth

/-- Decoding a JSON value into `SecretAuth`, as `json.Unmarshal` does:
absent or null `client_token` leaves the zero value, a non-string one
is a type error. -/
def decodeSecretAuth : JValue → Except Unit SecretAuth
  | .obj fs =>
    match lookupJ fs "client_token" with
    | none => .ok { clientToken := "" }
    | some .null => .ok { clientToken := "" }
    | some (.str s) => .ok { clientToken := s }
    | some _ => .error ()
  | _ => .error ()

/-- Decoding a JSON value into the used part of `api.Secret`:
a missing or null `auth` member leaves the nil pointer. -/
def unmarshalApiSecret : JValue → Except Unit ApiSecretPayload
  | .obj fs =>
    match lookupJ fs "auth" with
    | none => .ok { auth := none }
    | some .null => .ok { auth := none }
    | some v =>
      match decodeSecretAuth v with
      | .error e => .error e
      | .ok a => .ok { auth := some a }
  | .null => .ok { auth := none }
  | _ => .error ()

/-- Embedding of `githubLogin` (part_001, lines 125-185). `caRead` is
the outcome of `ioutil.ReadFile` on the CA certificate file (consulted
only when `ca_cert_file` is non-empty) and `respond` is what
`client.Do` returns for the constructed request. The first component
is the request handed to `client.Do` (`none` when the function fails
before sending); the second is the returned token or error, with
`panicked` for the nil-pointer dereference of `payload.Auth` on a
200 body that carries no auth object. -/
def githubLogin (cfg : ProviderConfig) (caRead : Except String Unit)
    (respond : HttpOutcome) : Option LoginRequest × GoResult String :=
  if cfg.personal_access_token = "" ∨ cfg.github_org = "" ∨ cfg.namespace_domain = "" then
    (none, .err "Missing personal_access_token or github_org or namespace_domain")
  else
    let githubPath := "github/" ++ cfg.namespace_domain ++ "/" ++ cfg.github_org
    let clientE : Except String HttpClientModel :=
      if cfg.ca_cert_file = "" then
        .ok { timeoutSeconds := 10, customRootCAs := false }
      else
        match caRead with
        | .error e => .error e
        | .ok _ => .ok { timeoutSeconds := 0, customRootCAs := true }
    match clientE with
    | .error e => (none, .err e)
    | .ok client =>
      let vaultGitHubURL := cfg.address ++ "/v1/auth/" ++ githubPath ++ "/login"
      let jsonStr := "\x7b\"token\":\"" ++ cfg.personal_access_token ++ "\"\x7d"
      let req : LoginRequest :=
        { method := "POST", url := vaultGitHubURL, body := jsonStr, client := client }
      match respond with
      | .netError e => (some req, .err e)
      | .nilResponse => (some req, .err "No response from vault during approle auth")
      | .response status body =>
        if status ≠ 200 then
          (some req, .err ("Vault authentication to GitHub Status " ++ toString status))
        else
          match body with
          | none => (some req, .err "json unmarshal: invalid response body")
          | some j =>
            match unmarshalApiSecret j with
            | .error _ => (some req, .err "json unmarshal: cannot decode response body")
            | .ok payload =>
              match payload.auth with
              | none => (some req, .panicked "runtime error: invalid memory address or nil pointer dereference")
              | some a => (some req, .ok a.clientToken)

/-- The context value `providerConfigure` returns on success: the
session token set on the Vault client plus the tenancy fields. -/
structure ConfiguredContext where
  sessionToken : String
  githubOrg : String
  namespaceDomain : String

/-- Embedding of `providerConfigure` (part_001, lines 187-243).
`tlsOutcome` and `newClientOutcome` are the outcomes of
`config.ConfigureTLS` and `api.NewClient`; `caRead` and `respond`
feed the nested `githubLogin` call, which runs exactly when
`personal_access_token` is non-empty and whose token then replaces
the static one. -/
def providerConfigure (cfg : ProviderConfig) (tlsOutcome : Except String Unit)
    (newClientOutcome : Except String Unit) (caRead : Except String Unit)
    (respond : HttpOutcome) : GoResult ConfiguredContext :=
  if cfg.clientAuth.length > 1 then
    .err "client_auth block may appear only once"
  else
    match tlsOutcome with
    | .error e => .err ("failed to configure TLS for Vault API: " ++ e)
    | .ok _ =>
      match newClientOutcome with
      | .error e => .err ("failed to configure Vault API: " ++ e)
      | .ok _ =>
        let tokenR : GoResult String :=
          if cfg.personal_access_token ≠ "" then (githubLogin cfg caRead respond).2
          else .ok cfg.token
        match tokenR with
        | .err e => .err e
        | .panicked m => .panicked m
        | .ok token =>
          if token = "" then .err "No authentication token was supplied!"
          else .ok { sessionToken := token, githubOrg := cfg.github_org,
                     namespaceDomain := cfg.namespace_domain }

/-- The part of a backend `api.Secret` the lifecycle controllers
consume: the request identifier, lease fields and the data map. -/
structure VaultSecret where
  requestID : String
  leaseID : String
  leaseDuration : Int
  renewable : Bool
  data : List (String × JValue)

/-- Outcome of one `client.Logical().Read`/`Write` round trip:
a Go error, or a possibly-nil `*api.Secret`. -/
def BackendOutcome : Type := Except String (Option VaultSecret)

/-- One write request issued to the backend: URI and JSON body. -/
structure BackendWrite where
  uri : String
  body : List (String × JValue)

/-- The tenancy fields of `ResourceContext` plus the Vault client's
address (used for the derived `auth_path` attribute). -/
structure TenancyContext where
  githubOrg : String
  namespaceDomain : String
  clientAddress : String

/-- The attribute state of an `immutability_approle` resource:
identity plus the three computed attributes, each `none` until set. -/
structure AppRoleState where
  id : Option String
  role_id : Option String
  secret_id : Option String
  auth_path : Option String

/-- Embedding of `approleWrite` (part_000, lines 43-83). `repository`
is the resource's `repository` attribute; `roleReadOutcome` and
`secretWriteOutcome` are the outcomes of the role-id read and the
secret-id generation write. Returns the attribute state after the call
together with the Go result; every early `return err` leaves the state
exactly as it was, because all `d.SetId`/`d.Set` calls in the source
come after the last check. A `role_id`/`secret_id` field that is
present but not a string models Go's failed type assertion as a panic. -/
def approleWrite (repository : String) (ctx : TenancyContext) (s : AppRoleState)
    (roleReadOutcome : BackendOutcome) (secretWriteOutcome : BackendOutcome) :
    AppRoleState × GoResult Unit :=
  let path := "auth/approle/" ++ ctx.namespaceDomain ++ "/" ++ ctx.githubOrg
    ++ "/role/" ++ repository
  match roleReadOutcome with
  | .error e => (s, .err ("Error reading RoleID from Vault: " ++ e))
  | .ok none => (s, .err "Error reading RoleID from Vault: %!s(<nil>)")
  | .ok (some secretRole) =>
    match lookupJ secretRole.data "role_id" with
    | none => (s, .err "RoleID not found")
    | some (.str roleID) =>
      match secretWriteOutcome with
      | .error e => (s, .err ("Error generating SecretID from Vault: " ++ e))
      | .ok none => (s, .err "Error generating SecretID from Vault: %!s(<nil>)")
      | .ok (some secret) =>
        match lookupJ secret.data "secret_id" with
        | none => (s, .err "secretID not found")
        | some (.str secretID) =>
          ({ id := some path,
             role_id := some roleID,
             secret_id := some secretID,
             auth_path := some (ctx.clientAddress ++ "/v1/auth/approle/"
               ++ ctx.namespaceDomain ++ "/" ++ ctx.githubOrg ++ "/login") },
           .ok ())
        | some _ => (s, .panicked "interface conversion: interface is not string")
    | some _ => (s, .panicked "interface conversion: interface is not string")

/-- Embedding of `approleRead` (part_000, lines 104-107): the body is
just `return nil`, so the state is untouched, no backend call is made
(middle component: the list of requests issued) and the result is nil. -/
def approleRead (s : AppRoleState) : AppRoleState × List BackendWrite × GoResult Unit :=
  (s, [], .ok ())

/-- The attribute state of an `immutability_ssl` resource. The five
computed attributes mirror `d.Set` on raw `interface` values from the
response data, hence `Option JValue`. -/
structure PkiState where
  id : String
  common_name : String
  path : String
  alt_names : String
  ip_sans : String
  ttl : String
  certificate : Option JValue
  private_key : Option JValue
  issuing_ca : Option JValue
  private_key_type : Option JValue
  serial_number : Option JValue
  revocation_time : Option JValue

/-- Embedding of `pkiWrite` (resource_pki.go, lines 82-122). The first
component is the issuance write the function sends. After a nil-error
write the source dereferences `secret.Data` and type-asserts
`secret.Data["serial_number"].(string)` without any check, so a nil
secret, a missing `serial_number` field, or a non-string one each
panic, with the state untouched (the panic precedes every `d.Set`). -/
def pkiWrite (ctx : TenancyContext) (s : PkiState) (writeOutcome : BackendOutcome) :
    BackendWrite × PkiState × GoResult Unit :=
  let data : List (String × JValue) :=
    [("common_name", JValue.str s.common_name)]
      ++ (if s.alt_names ≠ "" then [("alt_names", JValue.str s.alt_names)] else [])
      ++ (if s.ip_sans ≠ "" then [("ip_sans", JValue.str s.ip_sans)] else [])
      ++ (if s.ttl ≠ "" then [("ttl", JValue.str s.ttl)] else [])
  let uri := s.path ++ "/issue/" ++ ctx.githubOrg
  let req : BackendWrite := { uri := uri, body := data }
  match writeOutcome with
  | .error e => (req, s, .err ("error writing to Vault: " ++ e))
  | .ok none =>
    (req, s, .panicked "runtime error: invalid memory address or nil pointer dereference")
  | .ok (some secret) =>
    match lookupJ secret.data "serial_number" with
    | none => (req, s, .panicked "interface conversion: interface is nil, not string")
    | some (.str sn) =>
      (req,
       { s with
          id := sn
          certificate := lookupJ secret.data "certificate"
          private_key := lookupJ secret.data "private_key"
          issuing_ca := lookupJ secret.data "issuing_ca"
          private_key_type := lookupJ secret.data "private_key_type"
          serial_number := lookupJ secret.data "serial_number" },
       .ok ())
    | some _ => (req, s, .panicked "interface conversion: interface is not string")

/-- Embedding of `pkiDelete` (resource_pki.go, lines 124-142). The
first component is the revocation write: body exactly
`serial_number = d.Id()` at `path ++ "/revoke"`. On a write error the
error propagates and no attribute changes; on success
`revocation_time` is set from the response data (a nil secret with a
nil error would dereference `secret.Data` and panic). -/
def pkiDelete (s : PkiState) (writeOutcome : BackendOutcome) :
    BackendWrite × PkiState × GoResult Unit :=
  let req : BackendWrite :=
    { uri := s.path ++ "/revoke", body := [("serial_number", JValue.str s.id)] }
  match writeOutcome with
  | .error e => (req, s, .err ("error writing to Vault: " ++ e))
  | .ok none =>
    (req, s, .panicked "runtime error: invalid memory address or nil pointer dereference")
  | .ok (some secret) =>
    (req, { s with revocation_time := lookupJ secret.data "revocation_time" }, .ok ())

/-- Embedding of `pkiRead` (resource_pki.go, lines 144-147): the body
is just `return nil`; no state change, no backend call, nil result. -/
def pkiRead (s : PkiState) : PkiState × List BackendWrite × GoResult Unit :=
  (s, [], .ok ())

/-- A wall-clock instant in UTC, as consumed by Go `time.Format`. -/
structure GoTime where
  year : Nat
  month : Nat
  day : Nat
  hour : Nat
  minute : Nat
  second : Nat

/-- Two-digit zero-padded decimal, as Go layout chunks `01`..`15` print. -/
def pad2 (n : Nat) : String :=
  if n < 10 then "0" ++ toString n else toString n

/-- Four-digit zero-padded decimal for the `2006` year chunk. -/
def pad4 (n : Nat) : String :=
  if n < 10 then "000" ++ toString n
  else if n < 100 then "00" ++ toString n
  else if n < 1000 then "0" ++ toString n
  else toString n

/-- The hour on a 12-hour clock as Go's `3` chunk prints it
(0 and 12 both render as 12). -/
def hour12 (h : Nat) : Nat :=
  let r := h % 12
  if r = 0 then 12 else r

/-- Go `time.Format` layout interpretation over the reference-layout
chunks reachable from the layouts this code base uses (`RFC3339` the
literal string, and the `time.RFC3339` constant
`2006-01-02T15:04:05Z07:00`): `2006` the year, `01`/`02`/`03`/`04`/
`05`/`06` the padded month/day/12-hour/minute/second/short-year, `15`
the padded 24-hour, bare `1`/`2`/`3`/`4`/`5` the unpadded
month/day/12-hour/minute/second, `Z07:00` and `Z0700` the ISO zone
(rendered `Z` in UTC), `-07:00`/`-0700` the numeric zone; every other
character — including a bare `9`, which Go treats as fractional-second
only after a decimal point — is copied literally. -/
def goTimeFormatChars (t : GoTime) : List Char → String
  | [] => ""
  | '2' :: '0' :: '0' :: '6' :: rest => pad4 t.year ++ goTimeFormatChars t rest
  | '0' :: '1' :: rest => pad2 t.month ++ goTimeFormatChars t rest
  | '0' :: '2' :: rest => pad2 t.day ++ goTimeFormatChars t rest
  | '0' :: '3' :: rest => pad2 (hour12 t.hour) ++ goTimeFormatChars t rest
  | '0' :: '4' :: rest => pad2 t.minute ++ goTimeFormatChars t rest
  | '0' :: '5' :: rest => pad2 t.second ++ goTimeFormatChars t rest
  | '0' :: '6' :: rest => pad2 (t.year % 100) ++ goTimeFormatChars t rest
  | '1' :: '5' :: rest => pad2 t.hour ++ goTimeFormatChars t rest
  | '1' :: rest => toString t.month ++ goTimeFormatChars t rest
  | '2' :: rest => toString t.day ++ goTimeFormatChars t rest
  | '3' :: rest => toString (hour12 t.hour) ++ goTimeFormatChars t rest
  | '4' :: rest => toString t.minute ++ goTimeFormatChars t rest
  | '5' :: rest => toString t.second ++ goTimeFormatChars t rest
  | 'Z' :: '0' :: '7' :: ':' :: '0' :: '0' :: rest => "Z" ++ goTimeFormatChars t rest
  | 'Z' :: '0' :: '7' :: '0' :: '0' :: rest => "Z" ++ goTimeFormatChars t rest
  | '-' :: '0' :: '7' :: ':' :: '0' :: '0' :: rest => "+00:00" ++ goTimeFormatChars t rest
  | '-' :: '0' :: '7' :: '0' :: '0' :: rest => "+0000" ++ goTimeFormatChars t rest
  | c :: rest => String.singleton c ++ goTimeFormatChars t rest

/-- Go `time.Format` on a layout string, at a UTC instant. -/
def goTimeFormat (t : GoTime) (layout : String) : String :=
  goTimeFormatChars t layout.toList

/-- The Go constant `time.RFC3339` — the layout the provider's
`lease_start_time` stamp would need for an RFC 3339 timestamp. -/
def timeRFC3339Layout : String := "2006-01-02T15:04:05Z07:00"

/-- The projection of one backend data value into the flat string map
of `genericSecretDataSourceRead`: strings are copied verbatim, every
other value shape is re-serialized to its JSON encoding. -/
def flattenValue : JValue → String
  | .str s => s
  | v => jsonSerialize v

/-- The flat string map built from the backend payload (the loop of
data_source_generic_secret.go, lines 86-96). -/
def flattenData (d : List (String × JValue)) : List (String × String) :=
  d.map (fun kv => (kv.1, flattenValue kv.2))

/-- The attribute state of an `immutability_secret` data source. -/
structure GenericSecretState where
  path : String
  id : String
  data_json : String
  data : List (String × String)
  lease_id : String
  lease_duration : Int
  lease_start_time : String
  lease_renewable : Bool

/-- Embedding of `genericSecretDataSourceRead`
(data_source_generic_secret.go, lines 62-105). `readOutcome` is the
backend read at the configured path and `now` the wall clock at the
moment of the read. On success every computed attribute is set; note
that the source stamps `lease_start_time` with
`time.Now().Format("RFC3339")` — the literal string `RFC3339` used as
a Go layout — which the `goTimeFormat` model reproduces. -/
def genericSecretDataSourceRead (s : GenericSecretState)
    (readOutcome : BackendOutcome) (now : GoTime) :
    GenericSecretState × GoResult Unit :=
  match readOutcome with
  | .error e => (s, .err ("Error reading " ++ s.path ++ " from Vault: " ++ e))
  | .ok none => (s, .err ("Error reading " ++ s.path ++ " from Vault: %!s(<nil>)"))
  | .ok (some secret) =>
    ({ s with
        id := secret.requestID
        data_json := jsonSerialize (JValue.obj secret.data)
        data := flattenData secret.data
        lease_id := secret.leaseID
        lease_duration := secret.leaseDuration
        lease_start_time := goTimeFormat now "RFC3339"
        lease_renewable := secret.renewable },
     .ok ())

/-- A 200-response body carrying the session token, as in the spec
scenario: an auth object with a client_token string. -/
def authBody (tk : String) : JValue :=
  JValue.obj [("auth", JValue.obj [("client_token", JValue.str tk)])]

/-- The configuration of the spec's login scenario. -/
def exampleConfig : ProviderConfig :=
  { address := "https://vault.test:8200", token := "", personal_access_token := "pat123",
    github_org := "acme", namespace_domain := "acme.io", ca_cert_file := "", clientAuth := [] }

/-- A concrete read-time clock value: 2026-10-11 17:04:05 UTC. -/
def exampleReadTime : GoTime :=
  { year := 2026, month := 10, day := 11, hour := 17, minute := 4, second := 5 }

/-- A concrete backend secret with a single string entry. -/
def exampleSecret : VaultSecret :=
  { requestID := "req-1", leaseID := "lease-1", leaseDuration := 300,
    renewable := true, data := [("value", JValue.str "s3cr3t")] }

/-- A generic-secret data source state before any read. -/
def exampleGenericState : GenericSecretState :=
  { path := "secret/app", id := "", data_json := "", data := [],
    lease_id := "", lease_duration := 0, lease_start_time := "", lease_renewable := false }

/-- A concrete tenancy context for the controllers. -/
def exampleTenancy : TenancyContext :=
  { githubOrg := "acme", namespaceDomain := "acme.io",
    clientAddress := "https://vault.test:8200" }

/-- An AppRole resource state before any create. -/
def exampleAppRoleState : AppRoleState :=
  { id := none, role_id := none, secret_id := none, auth_path := none }

/-- A certificate resource state carrying a recorded serial number. -/
def examplePkiState : PkiState :=
  { id := "12:34:AB", common_name := "svc.acme.io", path := "pki_int",
    alt_names := "", ip_sans := "", ttl := "8760h",
    certificate := none, private_key := none, issuing_ca := none,
    private_key_type := none, serial_number := none, revocation_time := none }

/-! Theorems. -/

/-- The login URL built by the source as
address, "/v1/auth/", the github path, "/login" equals the
specification's grouping with "/v1/auth/github/" spliced in front of
the namespace. -/
theorem loginUrl_eq (A N O : String) :
    A ++ "/v1/auth/" ++ ("github/" ++ N ++ "/" ++ O) ++ "/login" =
      A ++ "/v1/auth/github/" ++ N ++ "/" ++ O ++ "/login" := by
  have h : ("/v1/auth/" ++ "github/" : String) = "/v1/auth/github/" := rfl
  simp [String.append_assoc]
  rw [← String.append_assoc "/v1/auth/" "github/", h]

/-- C1: with a non-empty personal access token P, organization O and
namespace N, the federated-login step POSTs to
address ++ "/v1/auth/github/" ++ N ++ "/" ++ O ++ "/login" with the
JSON body whose single field token holds P, and on a 200 response
whose body carries an auth object with client_token T the resulting
session token is exactly T. -/
theorem C1_login_request_and_token (cfg : ProviderConfig) (caRead : Except String Unit)
    (T : String)
    (hP : cfg.personal_access_token ≠ "") (hO : cfg.github_org ≠ "")
    (hN : cfg.namespace_domain ≠ "")
    (hCA : cfg.ca_cert_file = "" ∨ caRead = Except.ok ()) :
    ((githubLogin cfg caRead (.response 200 (some (authBody T)))).1.map LoginRequest.method
        = some "POST") ∧
    ((githubLogin cfg caRead (.response 200 (some (authBody T)))).1.map LoginRequest.url
        = some (cfg.address ++ "/v1/auth/github/" ++ cfg.namespace_domain ++ "/"
            ++ cfg.github_org ++ "/login")) ∧
    ((githubLogin cfg caRead (.response 200 (some (authBody T)))).1.map LoginRequest.body
        = some ("\x7b\"token\":\"" ++ cfg.personal_access_token ++ "\"\x7d")) ∧
    ((githubLogin cfg caRead (.response 200 (some (authBody T)))).2 = .ok T) := by
  rcases hCA with hCA | hCA
  · refine ⟨?_, ?_, ?_, ?_⟩ <;>
      simp [githubLogin, authBody, hP, hO, hN, hCA, unmarshalApiSecret, decodeSecretAuth,
        lookupJ, loginUrl_eq]
  · by_cases hc : cfg.ca_cert_file = ""
    · refine ⟨?_, ?_, ?_, ?_⟩ <;>
        simp [githubLogin, authBody, hP, hO, hN, hc, unmarshalApiSecret, decodeSecretAuth,
          lookupJ, loginUrl_eq]
    · refine ⟨?_, ?_, ?_, ?_⟩ <;>
        simp [githubLogin, authBody, hP, hO, hN, hc, hCA, unmarshalApiSecret, decodeSecretAuth,
          lookupJ, loginUrl_eq]

/-- Witness for C1 at the spec scenario: address https vault.test,
token pat123, org acme, namespace acme.io, response token tok-xyz. -/
theorem C1_login_witness :
    ((githubLogin exampleConfig (Except.ok ()) (.response 200 (some (authBody "tok-xyz")))).1.map
        LoginRequest.url = some "https://vault.test:8200/v1/auth/github/acme.io/acme/login") ∧
    ((githubLogin exampleConfig (Except.ok ()) (.response 200 (some (authBody "tok-xyz")))).1.map
        LoginRequest.body = some "\x7b\"token\":\"pat123\"\x7d") ∧
    ((githubLogin exampleConfig (Except.ok ()) (.response 200 (some (authBody "tok-xyz")))).2
        = .ok "tok-xyz") := by
  have h := C1_login_request_and_token exampleConfig (Except.ok ()) "tok-xyz"
    (by decide) (by decide) (by decide) (Or.inl rfl)
  exact ⟨h.2.1, h.2.2.1, h.2.2.2⟩

/-- Counterexample to C2: a 200 response whose body is an auth object
without a client_token field makes githubLogin return success with the
empty token — not an error. -/
theorem C2_counterexample :
    (githubLogin exampleConfig (Except.ok ())
        (.response 200 (some (JValue.obj [("auth", JValue.obj [])])))).2
      = .ok "" := rfl

/-- C2 (amended): a non-200 status yields an error carrying the status,
a network error yields an error carrying the cause, and an undecodable
200 body yields an error; but a 200 body whose auth object lacks the
client_token field makes githubLogin return success with the empty
token (providerConfigure then fails with its no-token error), and a
200 body with no auth object at all panics on a nil pointer instead of
returning an error. -/
theorem C2_login_failure_modes (cfg : ProviderConfig) (caRead : Except String Unit)
    (hP : cfg.personal_access_token ≠ "") (hO : cfg.github_org ≠ "")
    (hN : cfg.namespace_domain ≠ "")
    (hCA : cfg.ca_cert_file = "" ∨ caRead = Except.ok ()) :
    (∀ st body, st ≠ 200 →
        (githubLogin cfg caRead (.response st body)).2
          = .err ("Vault authentication to GitHub Status " ++ toString st)) ∧
    (∀ e, (githubLogin cfg caRead (.netError e)).2 = .err e) ∧
    ((githubLogin cfg caRead (.response 200 none)).2.isErr = true) ∧
    (∀ fs, lookupJ fs "client_token" = none →
        (githubLogin cfg caRead
            (.response 200 (some (JValue.obj [("auth", JValue.obj fs)])))).2 = .ok "") ∧
    (∀ fs, lookupJ fs "auth" = none →
        (githubLogin cfg caRead (.response 200 (some (JValue.obj fs)))).2.isPanic = true) := by
  rcases hCA with hCA | hCA
  · refine ⟨?_, ?_, ?_, ?_, ?_⟩
    · intro st body hst
      simp [githubLogin, hP, hO, hN, hCA, hst]
    · intro e; simp [githubLogin, hP, hO, hN, hCA]
    · simp [githubLogin, hP, hO, hN, hCA, GoResult.isErr]
    · intro fs hfs
      simp [githubLogin, hP, hO, hN, hCA, unmarshalApiSecret, decodeSecretAuth, lookupJ, hfs]
    · intro fs hfs
      simp [githubLogin, hP, hO, hN, hCA, unmarshalApiSecret, hfs, GoResult.isPanic]
  · by_cases hc : cfg.ca_cert_file = ""
    · refine ⟨?_, ?_, ?_, ?_, ?_⟩
      · intro st body hst
        simp [githubLogin, hP, hO, hN, hc, hst]
      · intro e; simp [githubLogin, hP, hO, hN, hc]
      · simp [githubLogin, hP, hO, hN, hc, GoResult.isErr]
      · intro fs hfs
        simp [githubLogin, hP, hO, hN, hc, unmarshalApiSecret, decodeSecretAuth, lookupJ, hfs]
      · intro fs hfs
        simp [githubLogin, hP, hO, hN, hc, unmarshalApiSecret, hfs, GoResult.isPanic]
    · refine ⟨?_, ?_, ?_, ?_, ?_⟩
      · intro st body hst
        simp [githubLogin, hP, hO, hN, hc, hCA, hst]
      · intro e; simp [githubLogin, hP, hO, hN, hc, hCA]
      · simp [githubLogin, hP, hO, hN, hc, hCA, GoResult.isErr]
      · intro fs hfs
        simp [githubLogin, hP, hO, hN, hc, hCA, unmarshalApiSecret, decodeSecretAuth, lookupJ, hfs]
      · intro fs hfs
        simp [githubLogin, hP, hO, hN, hc, hCA, unmarshalApiSecret, hfs, GoResult.isPanic]

/-- Witness for the amended C2 at concrete inputs: status 403 carries
the status in the error, and a missing client_token on the spec
configuration yields an empty-token success. -/
theorem C2_login_failure_witness :
    ((githubLogin exampleConfig (Except.ok ()) (.response 403 none)).2
        = .err "Vault authentication to GitHub Status 403") ∧
    ((githubLogin exampleConfig (Except.ok ())
        (.response 200 (some (JValue.obj [("auth", JValue.obj [("lease", JValue.num 1)])])))).2
        = .ok "") := by
  have h := C2_login_failure_modes exampleConfig (Except.ok ())
    (by decide) (by decide) (by decide) (Or.inl rfl)
  exact ⟨h.1 403 none (by decide), h.2.2.2.1 [("lease", JValue.num 1)] rfl⟩

/-- C3: with both a non-empty static token and a complete identity
triple, providerConfigure runs the federated login and uses its token
as the session token, ignoring the static one; and when neither source
yields a non-empty token — no token at all, or a login that came back
with the empty token — it fails with the no-authentication-token
error message. -/
theorem C3_authentication_precedence (cfg : ProviderConfig)
    (tlsOutcome newClientOutcome caRead : Except String Unit) (respond : HttpOutcome)
    (hAuth : cfg.clientAuth.length ≤ 1)
    (hTls : tlsOutcome = Except.ok ()) (hNc : newClientOutcome = Except.ok ()) :
    (∀ t, cfg.token ≠ "" → cfg.personal_access_token ≠ "" → cfg.github_org ≠ "" →
      cfg.namespace_domain ≠ "" → (githubLogin cfg caRead respond).2 = .ok t → t ≠ "" →
      providerConfigure cfg tlsOutcome newClientOutcome caRead respond
        = .ok { sessionToken := t, githubOrg := cfg.github_org,
                namespaceDomain := cfg.namespace_domain }) ∧
    (cfg.token = "" → cfg.personal_access_token = "" →
      providerConfigure cfg tlsOutcome newClientOutcome caRead respond
        = .err "No authentication token was supplied!") ∧
    (cfg.personal_access_token ≠ "" → (githubLogin cfg caRead respond).2 = .ok "" →
      providerConfigure cfg tlsOutcome newClientOutcome caRead respond
        = .err "No authentication token was supplied!") := by
  have hlen : ¬ cfg.clientAuth.length > 1 := by omega
  subst hTls; subst hNc
  refine ⟨?_, ?_, ?_⟩
  · intro t _ hP _ _ hLogin ht
    simp [providerConfigure, hlen, hP, hLogin, ht]
  · intro htok hP
    simp [providerConfigure, hlen, hP, htok]
  · intro hP hLogin
    simp [providerConfigure, hlen, hP, hLogin]

/-- Witness for C3: the spec configuration extended with a static
token still takes the session token tok-xyz from the login response,
and with no token sources at all Configure fails with the
no-authentication-token message. -/
theorem C3_precedence_witness :
    (providerConfigure { exampleConfig with token := "static-token" } (Except.ok ())
        (Except.ok ()) (Except.ok ()) (.response 200 (some (authBody "tok-xyz")))
      = .ok { sessionToken := "tok-xyz", githubOrg := "acme", namespaceDomain := "acme.io" }) ∧
    (providerConfigure { exampleConfig with personal_access_token := "" } (Except.ok ())
        (Except.ok ()) (Except.ok ()) (.response 200 (some (authBody "tok-xyz")))
      = .err "No authentication token was supplied!") := by
  have h1 := C3_authentication_precedence { exampleConfig with token := "static-token" }
    (Except.ok ()) (Except.ok ()) (Except.ok ()) (.response 200 (some (authBody "tok-xyz")))
    (by decide) rfl rfl
  have h2 := C3_authentication_precedence { exampleConfig with personal_access_token := "" }
    (Except.ok ()) (Except.ok ()) (Except.ok ()) (.response 200 (some (authBody "tok-xyz")))
    (by decide) rfl rfl
  exact ⟨h1.1 "tok-xyz" (by decide) (by decide) (by decide) (by decide) rfl (by decide),
    h2.2.1 rfl rfl⟩

/-- C4 is refuted by the code: when a CA certificate file is
configured, githubLogin replaces the ten-second-timeout client by a
custom-trust client built without any timeout (the Go zero value,
meaning no bound at all); the ten-second bound exists only in the
no-CA-file case. -/
theorem C4_ca_client_timeout_eval :
    (((githubLogin { exampleConfig with ca_cert_file := "/etc/ssl/ca.pem" } (Except.ok ())
        (.response 200 (some (authBody "tok-xyz")))).1.map
          (fun r => r.client.timeoutSeconds)) = some 0) ∧
    (((githubLogin { exampleConfig with ca_cert_file := "/etc/ssl/ca.pem" } (Except.ok ())
        (.response 200 (some (authBody "tok-xyz")))).1.map
          (fun r => r.client.customRootCAs)) = some true) ∧
    (((githubLogin exampleConfig (Except.ok ())
        (.response 200 (some (authBody "tok-xyz")))).1.map
          (fun r => r.client.timeoutSeconds)) = some 10) := ⟨rfl, rfl, rfl⟩

/-- C5: every failing path of the AppRole Create — role-id read error,
nil role-id response, missing role_id field, secret-id write error,
nil secret-id response, missing secret_id field — returns an error and
leaves the attribute state exactly as it was; and whenever the call
returns nil error, both backend calls succeeded, both fields were
present as strings, and the identity plus the three attributes carry
exactly the derived path, role id, secret id and login path. -/
theorem C5_approle_create_no_partial_state (repository : String) (ctx : TenancyContext)
    (s : AppRoleState) (roleOut secOut : BackendOutcome) :
    (∀ e, roleOut = Except.error e →
        approleWrite repository ctx s roleOut secOut
          = (s, .err ("Error reading RoleID from Vault: " ++ e))) ∧
    (roleOut = Except.ok none →
        approleWrite repository ctx s roleOut secOut
          = (s, .err "Error reading RoleID from Vault: %!s(<nil>)")) ∧
    (∀ rs, roleOut = Except.ok (some rs) → lookupJ rs.data "role_id" = none →
        approleWrite repository ctx s roleOut secOut = (s, .err "RoleID not found")) ∧
    (∀ rs rid e, roleOut = Except.ok (some rs) →
        lookupJ rs.data "role_id" = some (JValue.str rid) → secOut = Except.error e →
        approleWrite repository ctx s roleOut secOut
          = (s, .err ("Error generating SecretID from Vault: " ++ e))) ∧
    (∀ rs rid, roleOut = Except.ok (some rs) →
        lookupJ rs.data "role_id" = some (JValue.str rid) → secOut = Except.ok none →
        approleWrite repository ctx s roleOut secOut
          = (s, .err "Error generating SecretID from Vault: %!s(<nil>)")) ∧
    (∀ rs rid ss, roleOut = Except.ok (some rs) →
        lookupJ rs.data "role_id" = some (JValue.str rid) → secOut = Except.ok (some ss) →
        lookupJ ss.data "secret_id" = none →
        approleWrite repository ctx s roleOut secOut = (s, .err "secretID not found")) ∧
    (∀ s' u, approleWrite repository ctx s roleOut secOut = (s', GoResult.ok u) →
        ∃ rs rid ss sid, roleOut = Except.ok (some rs)
          ∧ lookupJ rs.data "role_id" = some (JValue.str rid)
          ∧ secOut = Except.ok (some ss)
          ∧ lookupJ ss.data "secret_id" = some (JValue.str sid)
          ∧ s' = { id := some ("auth/approle/" ++ ctx.namespaceDomain ++ "/"
                     ++ ctx.githubOrg ++ "/role/" ++ repository),
                   role_id := some rid, secret_id := some sid,
                   auth_path := some (ctx.clientAddress ++ "/v1/auth/approle/"
                     ++ ctx.namespaceDomain ++ "/" ++ ctx.githubOrg ++ "/login") }) := by
  refine ⟨?_, ?_, ?_, ?_, ?_, ?_, ?_⟩
  · rintro e rfl; simp [approleWrite]
  · rintro rfl; simp [approleWrite]
  · rintro rs rfl h; simp [approleWrite, h]
  · rintro rs rid e rfl h rfl; simp [approleWrite, h]
  · rintro rs rid rfl h rfl; simp [approleWrite, h]
  · rintro rs rid ss rfl h rfl h2; simp [approleWrite, h, h2]
  · rintro s' u h
    match hr : roleOut with
    | .error e => simp [approleWrite, hr] at h
    | .ok none => simp [approleWrite] at h
    | .ok (some rs) =>
      match hrid : lookupJ rs.data "role_id" with
      | none => simp [approleWrite, hrid] at h
      | some JValue.null => simp [approleWrite, hrid] at h
      | some (JValue.bool b) => simp [approleWrite, hrid] at h
      | some (JValue.num n) => simp [approleWrite, hrid] at h
      | some (JValue.arr xs) => simp [approleWrite, hrid] at h
      | some (JValue.obj fs) => simp [approleWrite, hrid] at h
      | some (JValue.str rid) =>
        match hs : secOut with
        | .error e => simp [approleWrite, hrid, hs] at h
        | .ok none => simp [approleWrite, hrid, hs] at h
        | .ok (some ss) =>
          match hsid : lookupJ ss.data "secret_id" with
          | none => simp [approleWrite, hrid, hsid] at h
          | some JValue.null => simp [approleWrite, hrid, hsid] at h
          | some (JValue.bool b) => simp [approleWrite, hrid, hsid] at h
          | some (JValue.num n) => simp [approleWrite, hrid, hsid] at h
          | some (JValue.arr xs) => simp [approleWrite, hrid, hsid] at h
          | some (JValue.obj fs) => simp [approleWrite, hrid, hsid] at h
          | some (JValue.str sid) =>
            refine ⟨rs, rid, ss, sid, rfl, hrid, rfl, hsid, ?_⟩
            have h' := h
            simp [approleWrite, hrid, hsid] at h'
            exact h'.symm

/-- Witness for C5: a nil role-id response and, separately, a
secret-id response without the secret_id field both leave the empty
AppRole state untouched with an error. -/
theorem C5_approle_witness :
    (approleWrite "my-repo" exampleTenancy exampleAppRoleState (Except.ok none)
        (Except.ok none)
      = (exampleAppRoleState, .err "Error reading RoleID from Vault: %!s(<nil>)")) ∧
    (approleWrite "my-repo" exampleTenancy exampleAppRoleState
        (Except.ok (some exampleSecret))
        (Except.ok none)
      = (exampleAppRoleState, .err "RoleID not found")) := by
  have h1 := C5_approle_create_no_partial_state "my-repo" exampleTenancy exampleAppRoleState
    (Except.ok none) (Except.ok none)
  have h2 := C5_approle_create_no_partial_state "my-repo" exampleTenancy exampleAppRoleState
    (Except.ok (some exampleSecret)) (Except.ok none)
  exact ⟨h1.2.1 rfl, h2.2.2.1 exampleSecret rfl rfl⟩

/-- A non-string backend value is projected to its JSON encoding. -/
theorem flattenValue_of_not_str (v : JValue) (h : ∀ t, v ≠ JValue.str t) :
    flattenValue v = jsonSerialize v := by
  cases v <;> first | rfl | exact absurd rfl (h _)

/-- Flattening preserves the key sequence of the payload. -/
theorem flattenData_keys (d : List (String × JValue)) :
    (flattenData d).map Prod.fst = d.map Prod.fst := by
  simp [flattenData, List.map_map]

/-- An all-string payload is recovered verbatim from its flattening. -/
theorem flattenData_roundtrip (d : List (String × JValue))
    (h : ∀ p ∈ d, ∃ t, p.2 = JValue.str t) :
    d = (flattenData d).map (fun p => (p.1, JValue.str p.2)) := by
  induction d with
  | nil => rfl
  | cons p rest ih =>
    obtain ⟨t, ht⟩ := h p (List.mem_cons_self p rest)
    obtain ⟨k, v⟩ := p
    simp only at ht
    subst ht
    simp only [flattenData, List.map_cons, flattenValue]
    exact congrArg _ (ih fun q hq => h q (List.mem_cons_of_mem _ hq))

/-- C6: a successful generic-secret read stores exactly the flattening
of the backend payload; the flattening has exactly the payload's keys,
copies string entries verbatim, sends every non-string entry to its
canonical JSON encoding, and an all-string payload round-trips
verbatim. -/
theorem C6_generic_secret_flatten (s : GenericSecretState) (sec : VaultSecret)
    (now : GoTime) :
    ((genericSecretDataSourceRead s (.ok (some sec)) now).1.data = flattenData sec.data) ∧
    ((flattenData sec.data).map Prod.fst = sec.data.map Prod.fst) ∧
    (∀ k t, (k, JValue.str t) ∈ sec.data → (k, t) ∈ flattenData sec.data) ∧
    (∀ k v, (k, v) ∈ sec.data → (∀ t, v ≠ JValue.str t) →
        (k, jsonSerialize v) ∈ flattenData sec.data) ∧
    ((∀ p ∈ sec.data, ∃ t, p.2 = JValue.str t) →
        sec.data = (flattenData sec.data).map (fun p => (p.1, JValue.str p.2))) := by
  refine ⟨rfl, flattenData_keys sec.data, ?_, ?_, flattenData_roundtrip sec.data⟩
  · intro k t hmem
    exact List.mem_map_of_mem _ hmem
  · intro k v hmem hns
    have h := List.mem_map_of_mem (fun kv : String × JValue => (kv.1, flattenValue kv.2)) hmem
    simp only at h
    rwa [flattenValue_of_not_str v hns] at h

/-- Witness for C6: on the concrete one-entry payload, the read stores
the flattening, the string entry is copied verbatim, and a numeric
entry maps to its JSON encoding. -/
theorem C6_generic_secret_witness :
    ((genericSecretDataSourceRead exampleGenericState (.ok (some exampleSecret))
        exampleReadTime).1.data = flattenData exampleSecret.data) ∧
    (("value", "s3cr3t") ∈ flattenData exampleSecret.data) ∧
    (("n", jsonSerialize (JValue.num 42)) ∈ flattenData [("n", JValue.num 42)]) := by
  have h1 := C6_generic_secret_flatten exampleGenericState exampleSecret exampleReadTime
  have h2 := C6_generic_secret_flatten exampleGenericState
    { exampleSecret with data := [("n", JValue.num 42)] } exampleReadTime
  refine ⟨h1.1, h1.2.2.1 "value" "s3cr3t" (List.Mem.head _), ?_⟩
  exact h2.2.2.2.1 "n" (JValue.num 42) (List.Mem.head _) (fun t ht => by cases ht)

/-- C7: the certificate Delete writes exactly a one-field body with
the recorded serial number to the mount's revoke path; a write error
propagates as an error with the state (hence revocation_time)
untouched; and whenever the call returns nil error the revocation
write succeeded and revocation_time holds the response's
revocation_time field. -/
theorem C7_pki_delete_revocation (s : PkiState) (writeOutcome : BackendOutcome) :
    ((pkiDelete s writeOutcome).1
        = { uri := s.path ++ "/revoke", body := [("serial_number", JValue.str s.id)] }) ∧
    (∀ e, writeOutcome = Except.error e →
        (pkiDelete s writeOutcome).2 = (s, .err ("error writing to Vault: " ++ e))) ∧
    (∀ s' u, (pkiDelete s writeOutcome).2 = (s', GoResult.ok u) →
        ∃ sec, writeOutcome = Except.ok (some sec)
          ∧ s'.revocation_time = lookupJ sec.data "revocation_time") ∧
    ((pkiDelete s writeOutcome).2.2.isErr = true → (pkiDelete s writeOutcome).2.1 = s) := by
  refine ⟨?_, ?_, ?_, ?_⟩
  · cases writeOutcome with
    | error e => rfl
    | ok o => cases o with
      | none => rfl
      | some sec => rfl
  · rintro e rfl; simp [pkiDelete]
  · rintro s' u h
    match hw : writeOutcome with
    | .error e => simp [pkiDelete, hw] at h
    | .ok none => simp [pkiDelete] at h
    | .ok (some sec) =>
      refine ⟨sec, rfl, ?_⟩
      have h' := h
      simp [pkiDelete] at h'
      rw [← h']
  · intro herr
    match hw : writeOutcome with
    | .error e => simp [pkiDelete]
    | .ok none => simp [pkiDelete, GoResult.isErr] at herr
    | .ok (some sec) => simp [pkiDelete, GoResult.isErr] at herr

/-- Witness for C7: on the concrete certificate state the revoke body
is exactly the recorded serial number, and a failed write leaves the
state untouched with an error. -/
theorem C7_pki_delete_witness :
    ((pkiDelete examplePkiState (Except.error "connection refused")).1
        = { uri := "pki_int/revoke", body := [("serial_number", JValue.str "12:34:AB")] }) ∧
    ((pkiDelete examplePkiState (Except.error "connection refused")).2
        = (examplePkiState, .err "error writing to Vault: connection refused")) := by
  have h := C7_pki_delete_revocation examplePkiState (Except.error "connection refused")
  exact ⟨h.1, h.2.1 "connection refused" rfl⟩

/-- C8: AppRole Read and certificate Read are pure no-ops: whatever
the attribute state, they return it unchanged, issue no backend call
and return nil error. -/
theorem C8_reads_are_noops (sa : AppRoleState) (sp : PkiState) :
    approleRead sa = (sa, [], .ok ()) ∧ pkiRead sp = (sp, [], .ok ()) :=
  ⟨rfl, rfl⟩

/-- C9 is refuted by the code: the source stamps lease_start_time with
Format applied to the literal layout string RFC3339, in which Go reads
each digit 3 as the unpadded 12-hour-clock hour and everything else as
literal text; at 2026-10-11 17:04:05 UTC the stored value is RFC5559,
not the RFC 3339 rendering 2026-10-11T17:04:05Z that the layout
constant time.RFC3339 would produce. -/
theorem C9_lease_start_time_malformed :
    ((genericSecretDataSourceRead exampleGenericState (.ok (some exampleSecret))
        exampleReadTime).1.lease_start_time = "RFC5559") ∧
    (goTimeFormat exampleReadTime timeRFC3339Layout = "2026-10-11T17:04:05Z") ∧
    ((genericSecretDataSourceRead exampleGenericState (.ok (some exampleSecret))
        exampleReadTime).1.lease_start_time
      ≠ goTimeFormat exampleReadTime timeRFC3339Layout) := by
  have h1 : (genericSecretDataSourceRead exampleGenericState (.ok (some exampleSecret))
      exampleReadTime).1.lease_start_time = "RFC5559" := rfl
  have h2 : goTimeFormat exampleReadTime timeRFC3339Layout = "2026-10-11T17:04:05Z" := rfl
  refine ⟨h1, h2, ?_⟩
  rw [h1, h2]
  decide

/-- C10: after a nil-error issuance write, the certificate Create
dereferences and type-asserts the response without any check — a nil
secret, a data map without serial_number, and a non-string
serial_number each panic instead of returning an error — whereas the
AppRole Create under the analogous conditions (nil response, missing
field) returns an ordinary error. -/
theorem C10_pki_write_unchecked_panics (ctx : TenancyContext) (s : PkiState)
    (repository : String) (sa : AppRoleState) (secOut : BackendOutcome) :
    ((pkiWrite ctx s (Except.ok none)).2.2.isPanic = true) ∧
    (∀ sec, lookupJ sec.data "serial_number" = none →
        (pkiWrite ctx s (Except.ok (some sec))).2.2.isPanic = true) ∧
    (∀ sec v, lookupJ sec.data "serial_number" = some v → (∀ t, v ≠ JValue.str t) →
        (pkiWrite ctx s (Except.ok (some sec))).2.2.isPanic = true) ∧
    ((approleWrite repository ctx sa (Except.ok none) secOut).2.isErr = true) ∧
    (∀ rs, lookupJ rs.data "role_id" = none →
        (approleWrite repository ctx sa (Except.ok (some rs)) secOut).2.isErr = true) := by
  refine ⟨?_, ?_, ?_, ?_, ?_⟩
  · simp [pkiWrite, GoResult.isPanic]
  · intro sec hsn
    simp [pkiWrite, hsn, GoResult.isPanic]
  · intro sec v hsn hns
    cases v with
    | str t => exact absurd rfl (hns t)
    | null => simp [pkiWrite, hsn, GoResult.isPanic]
    | bool b => simp [pkiWrite, hsn, GoResult.isPanic]
    | num n => simp [pkiWrite, hsn, GoResult.isPanic]
    | arr xs => simp [pkiWrite, hsn, GoResult.isPanic]
    | obj fs => simp [pkiWrite, hsn, GoResult.isPanic]
  · simp [approleWrite, GoResult.isErr]
  · intro rs hr
    simp [approleWrite, hr, GoResult.isErr]

/-- Witness for C10: a nil issuance response panics the certificate
Create, a numeric serial_number panics it too, and the AppRole Create
on a nil role-id response merely errors. -/
theorem C10_pki_write_witness :
    ((pkiWrite exampleTenancy examplePkiState (Except.ok none)).2.2.isPanic = true) ∧
    ((pkiWrite exampleTenancy examplePkiState
        (Except.ok (some { exampleSecret with
          data := [("serial_number", JValue.num 7)] }))).2.2.isPanic = true) ∧
    ((approleWrite "my-repo" exampleTenancy exampleAppRoleState (Except.ok none)
        (Except.ok none)).2.isErr = true) := by
  have h := C10_pki_write_unchecked_panics exampleTenancy examplePkiState
    "my-repo" exampleAppRoleState (Except.ok none)
  refine ⟨h.1, ?_, h.2.2.2.1⟩
  exact h.2.2.1 { exampleSecret with data := [("serial_number", JValue.num 7)] }
    (JValue.num 7) rfl (fun t ht => by cases ht)
